import Mathlib

/-!
Shallow embedding of the moderation bot in `src/AMAZE.PY`.

The bot reacts to four platform event families (message create, channel
create, role create, member ban), consults a mutable allow-list
(`whitelisted`), and issues side effects (delete, timeout, ban, direct
message, audit log).  Here each event handler is embedded as a pure
function from its inputs (event payload, allow-list snapshot, audit-log
lookup result) to the list of platform actions it performs, in order.
Texts built by Python f-strings are represented structurally (which log
or DM message, with the data interpolated into it) rather than as
rendered strings; reason strings passed verbatim to the platform API are
kept verbatim.
-/

namespace Amaze

/-- A platform account identifier (`user.id` / `member.id` in the source). -/
abbrev Principal := Nat

/-- A message author: the account id and the platform's bot-account flag
(`message.author.id`, `message.author.bot`). -/
structure Author where
  id : Principal
  isBot : Bool
deriving DecidableEq, Repr

/-- The data of a `MessageCreated` event that `on_message` reads. -/
structure MsgEvent where
  msgId : Nat
  author : Author
  content : List Char
  channelId : Nat
deriving DecidableEq, Repr

/-- One entry of the platform audit log, as consumed by the three
structural-change handlers: only `entry.user.id` is read. -/
structure AuditEntry where
  userId : Principal
deriving DecidableEq, Repr

/-- `TIMEOUT_DURATION = 600` (seconds) from the source. -/
def TIMEOUT_DURATION : Nat := 600

/-- `whitelisted = {OWNER_ID}`: the allow-list at startup. -/
def initialWhitelist (ownerId : Principal) : Finset Principal := {ownerId}

/-- Body of the `!whitelist` command: `whitelisted.add(member.id)`. -/
def whitelist (wl : Finset Principal) (memberId : Principal) : Finset Principal :=
  insert memberId wl

/-- Body of the `!unwhitelist` command: `whitelisted.discard(member.id)`. -/
def unwhitelist (wl : Finset Principal) (memberId : Principal) : Finset Principal :=
  wl.erase memberId

/-- Python's regex whitespace class `\s` restricted to ASCII, as used by
`\S` (its complement) in `LINK_PATTERN`. -/
def isPySpace (c : Char) : Bool :=
  c = ' ' || c = '\t' || c = '\n' || c = '\r' || c = '\x0b' || c = '\x0c'

/-- Literal characters of `http://`. -/
def httpLit : List Char := ['h', 't', 't', 'p', ':', '/', '/']

/-- Literal characters of `https://`. -/
def httpsLit : List Char := ['h', 't', 't', 'p', 's', ':', '/', '/']

/-- Literal characters of `www.`. -/
def wwwLit : List Char := ['w', 'w', 'w', '.']

/-- The given literal occurs at the head of `l`, followed by at least one
non-whitespace character: one regex alternative `lit\S+` matched at this
position (greediness of `\S+` is irrelevant to match existence). -/
def litThenNonspaceAt (lit : List Char) (l : List Char) : Bool :=
  List.isPrefixOf lit l &&
    (match List.drop lit.length l with
     | [] => false
     | c :: _ => !isPySpace c)

/-- `LINK_PATTERN = re.compile(r"(https?://\S+|www\.\S+)")` matches at the
head of `l`: `https?` expands to the two literals `http` and `https`. -/
def linkMatchAt (l : List Char) : Bool :=
  litThenNonspaceAt httpLit l || litThenNonspaceAt httpsLit l ||
    litThenNonspaceAt wwwLit l

/-- `LINK_PATTERN.search(content)`: the pattern matches at some position. -/
def linkSearchList : List Char → Bool
  | [] => false
  | c :: rest => linkMatchAt (c :: rest) || linkSearchList rest

/-- `str.lower()` on the message body (ASCII model). -/
def toLowerList (l : List Char) : List Char := l.map Char.toLower

/-- Python's substring test `pat in s`. -/
def hasSubstr (pat : List Char) : List Char → Bool
  | [] => List.isPrefixOf pat []
  | c :: rest => List.isPrefixOf pat (c :: rest) || hasSubstr pat rest

/-- Literal characters of `@everyone`. -/
def everyoneLit : List Char := ['@', 'e', 'v', 'e', 'r', 'y', 'o', 'n', 'e']

/-- Literal characters of `@here`. -/
def hereLit : List Char := ['@', 'h', 'e', 'r', 'e']

/-- `any(mention in message.content.lower() for mention in ["@everyone", "@here"])`. -/
def mentionHit (content : List Char) : Bool :=
  hasSubstr everyoneLit (toLowerList content) ||
    hasSubstr hereLit (toLowerList content)

/-- The direct messages `send_dm` is called with (texts are fixed apart
from the interpolated minute count `TIMEOUT_DURATION // 60`). -/
inductive DmText where
  | linkWarning
  | massMentionWarning (minutes : Nat)
deriving DecidableEq, Repr

/-- The audit-channel messages `log_action` is called with, represented
by which call site produced them and the data interpolated into the
f-string (`contentPrefix` is `message.content[:100]`). -/
inductive LogText where
  | linkViolation (author : Principal) (channelId : Nat) (contentPrefix : List Char)
  | massMention (author : Principal) (channelId : Nat)
  | channelCreateBan (actor : Principal) (channelName : List Char)
  | roleCreateBan (actor : Principal) (roleName : List Char)
  | banRevert (actor : Principal) (target : Principal)
deriving DecidableEq, Repr

/-- The platform action primitives the handlers invoke, in source order.
`unban` is in the action vocabulary although no handler ever issues it:
its absence from a handler's trace is part of what the frame claims say. -/
inductive Action where
  | deleteMessage (msgId : Nat)
  | sendDM (recipient : Principal) (text : DmText)
  | timeoutMember (target : Principal) (seconds : Nat) (reason : String)
  | logAction (text : LogText)
  | processCommands (msgId : Nat)
  | deleteChannel (channelId : Nat)
  | deleteRole (roleId : Nat)
  | ban (target : Principal) (reason : String)
  | unban (target : Principal)
deriving DecidableEq, Repr

/-- Condition of the link-protection branch of `on_message`:
`LINK_PATTERN.search(message.content) and message.author.id not in whitelisted`. -/
def linkRuleFires (wl : Finset Principal) (m : MsgEvent) : Bool :=
  linkSearchList m.content && !(decide (m.author.id ∈ wl))

/-- Condition of the mass-mention branch of `on_message`. -/
def mentionRuleFires (wl : Finset Principal) (m : MsgEvent) : Bool :=
  mentionHit m.content && !(decide (m.author.id ∈ wl))

/-- The spec's verdict vocabulary for policy outcomes. -/
inductive Verdict where
  | Allow
  | DeleteAndWarn
  | TimeoutAndWarn
  | RevertAndBan
deriving DecidableEq, Repr

/-- Link-policy verdict: the outcome of the link branch condition. -/
def linkVerdict (wl : Finset Principal) (m : MsgEvent) : Verdict :=
  if linkRuleFires wl m then Verdict.DeleteAndWarn else Verdict.Allow

/-- Mass-mention-policy verdict: the outcome of the mention branch condition. -/
def mentionVerdict (wl : Finset Principal) (m : MsgEvent) : Verdict :=
  if mentionRuleFires wl m then Verdict.TimeoutAndWarn else Verdict.Allow

/-- Structural-change verdict for a resolved actor (`entry.user.id not in
whitelisted` guards all three structural handlers). -/
def structuralVerdict (wl : Finset Principal) (actor : Principal) : Verdict :=
  if actor ∈ wl then Verdict.Allow else Verdict.RevertAndBan

/-- `on_message`, as the ordered list of platform actions it performs:
early return on `message.author.bot`, link branch, mention branch, then
`bot.process_commands(message)`. -/
def onMessage (wl : Finset Principal) (m : MsgEvent) : List Action :=
  if m.author.isBot then []
  else
    (if linkRuleFires wl m then
      [Action.deleteMessage m.msgId,
       Action.sendDM m.author.id DmText.linkWarning,
       Action.logAction (LogText.linkViolation m.author.id m.channelId (m.content.take 100))]
     else []) ++
    (if mentionRuleFires wl m then
      [Action.deleteMessage m.msgId,
       Action.timeoutMember m.author.id TIMEOUT_DURATION "Mass mention violation",
       Action.sendDM m.author.id (DmText.massMentionWarning (TIMEOUT_DURATION / 60)),
       Action.logAction (LogText.massMention m.author.id m.channelId)]
     else []) ++
    [Action.processCommands m.msgId]

/-- `on_guild_channel_create`: the audit-log query with `limit=1` yields
at most one entry (`none` models an empty result, whose loop body never
runs). -/
def on_guild_channel_create (wl : Finset Principal) (channelId : Nat)
    (channelName : List Char) (audit : Option AuditEntry) : List Action :=
  match audit with
  | none => []
  | some entry =>
    if entry.userId ∈ wl then []
    else
      [Action.deleteChannel channelId,
       Action.ban entry.userId "Unauthorized channel creation",
       Action.logAction (LogText.channelCreateBan entry.userId channelName)]

/-- `on_guild_role_create`, analogous to the channel handler. -/
def on_guild_role_create (wl : Finset Principal) (roleId : Nat)
    (roleName : List Char) (audit : Option AuditEntry) : List Action :=
  match audit with
  | none => []
  | some entry =>
    if entry.userId ∈ wl then []
    else
      [Action.deleteRole roleId,
       Action.ban entry.userId "Unauthorized role creation",
       Action.logAction (LogText.roleCreateBan entry.userId roleName)]

/-- `on_member_ban`: `user` is the target of the triggering ban; the
handler bans `entry.user` (the resolved actor) and logs. -/
def on_member_ban (wl : Finset Principal) (targetUser : Principal)
    (audit : Option AuditEntry) : List Action :=
  match audit with
  | none => []
  | some entry =>
    if entry.userId ∈ wl then []
    else
      [Action.ban entry.userId "Unauthorized ban attempt",
       Action.logAction (LogText.banRevert entry.userId targetUser)]

/-- Possible outcomes of the `user.send` call inside `send_dm`: success,
`discord.Forbidden` (the only exception `send_dm` catches), or any other
exception (e.g. `discord.HTTPException`), which propagates. -/
inductive DmOutcome where
  | ok
  | forbidden
  | httpError
deriving DecidableEq, Repr

/-- Possible outcomes of `log_action`: success, `get_channel` returning
`None` (the `if log_channel:` guard silently skips the send), or the send
itself raising, which propagates. -/
inductive LogOutcome where
  | ok
  | channelMissing
  | sendError
deriving DecidableEq, Repr

/-- Which action primitives fail during one `on_message` invocation.
`deleteOk`/`timeoutOk` are `false` when `message.delete()` /
`member.timeout(...)` raise (e.g. target already gone, missing
permission); neither call sits inside a `try` in the source. -/
structure FailureModel where
  deleteOk : Bool
  timeoutOk : Bool
  dm : DmOutcome
  log : LogOutcome
deriving DecidableEq, Repr

/-- Sequencing with Python exception propagation: if the first part
raised (its flag is `false`), the second part never runs. The list holds
the primitives that were attempted, in order. -/
def seqExc (a b : List Action × Bool) : List Action × Bool :=
  if a.2 then (a.1 ++ b.1, b.2) else a

/-- `message.delete()` under the failure model: no `try` around it. -/
def deleteExc (fm : FailureModel) (msgId : Nat) : List Action × Bool :=
  ([Action.deleteMessage msgId], fm.deleteOk)

/-- `send_dm` under the failure model: `discord.Forbidden` is caught
inside the helper (it only prints to the console), anything else
propagates to the caller. -/
def sendDmExc (fm : FailureModel) (recipient : Principal) (text : DmText) :
    List Action × Bool :=
  match fm.dm with
  | DmOutcome.ok => ([Action.sendDM recipient text], true)
  | DmOutcome.forbidden => ([Action.sendDM recipient text], true)
  | DmOutcome.httpError => ([Action.sendDM recipient text], false)

/-- `member.timeout(...)` under the failure model: no `try` around it. -/
def timeoutExc (fm : FailureModel) (target : Principal) (seconds : Nat)
    (reason : String) : List Action × Bool :=
  ([Action.timeoutMember target seconds reason], fm.timeoutOk)

/-- `log_action` under the failure model: a missing log channel is
skipped silently; a failing send propagates. -/
def logExc (fm : FailureModel) (text : LogText) : List Action × Bool :=
  match fm.log with
  | LogOutcome.ok => ([Action.logAction text], true)
  | LogOutcome.channelMissing => ([], true)
  | LogOutcome.sendError => ([Action.logAction text], false)

/-- `on_message` under the failure model: the same straight-line code as
`onMessage`, but each primitive may raise, and an uncaught exception
aborts the rest of the handler (including `bot.process_commands`). The
Boolean is `true` iff the handler ran to completion without an uncaught
exception. -/
def onMessageExc (fm : FailureModel) (wl : Finset Principal) (m : MsgEvent) :
    List Action × Bool :=
  if m.author.isBot then ([], true)
  else
    seqExc
      (seqExc
        (if linkRuleFires wl m then
          seqExc
            (seqExc (deleteExc fm m.msgId)
              (sendDmExc fm m.author.id DmText.linkWarning))
            (logExc fm (LogText.linkViolation m.author.id m.channelId (m.content.take 100)))
         else ([], true))
        (if mentionRuleFires wl m then
          seqExc
            (seqExc
              (seqExc (deleteExc fm m.msgId)
                (timeoutExc fm m.author.id TIMEOUT_DURATION "Mass mention violation"))
              (sendDmExc fm m.author.id (DmText.massMentionWarning (TIMEOUT_DURATION / 60))))
            (logExc fm (LogText.massMention m.author.id m.channelId))
         else ([], true)))
      ([Action.processCommands m.msgId], true)

/-- The failure model in which every primitive succeeds. -/
def fmAllOk : FailureModel :=
  ⟨true, true, DmOutcome.ok, LogOutcome.ok⟩

/-- Every primitive succeeds except the DM, which raises `Forbidden`. -/
def fmDmForbidden : FailureModel :=
  ⟨true, true, DmOutcome.forbidden, LogOutcome.ok⟩

/-- Every primitive succeeds except `message.delete()`, which raises
(e.g. the message is already gone or the bot lacks permission). -/
def fmDeleteFail : FailureModel :=
  ⟨false, true, DmOutcome.ok, LogOutcome.ok⟩

/-- Sanity: with no failures, the exception-aware handler performs
exactly the actions of `onMessage` and completes. -/
theorem onMessageExc_allOk (wl : Finset Principal) (m : MsgEvent) :
    onMessageExc fmAllOk wl m = (onMessage wl m, true) := by
  cases hb : m.author.isBot <;>
    cases hl : linkRuleFires wl m <;>
      cases hm : mentionRuleFires wl m <;>
        simp [onMessage, onMessageExc, seqExc, deleteExc, sendDmExc, timeoutExc,
          logExc, fmAllOk, hb, hl, hm]

/-- The moderation-relevant guild state the handlers can change, used to
state frame properties: which principals are banned or timed out and
which channels and roles exist. -/
structure GuildState where
  banned : Finset Principal
  channels : Finset Nat
  roles : Finset Nat
  timedOut : Finset Principal

/-- Effect of one platform action on the guild state. Messages sent
(DMs, log entries, command processing) do not change this state. -/
def applyAction (s : GuildState) : Action → GuildState
  | Action.ban p _ => { s with banned := insert p s.banned }
  | Action.unban p => { s with banned := s.banned.erase p }
  | Action.deleteChannel c => { s with channels := s.channels.erase c }
  | Action.deleteRole r => { s with roles := s.roles.erase r }
  | Action.timeoutMember p _ _ => { s with timedOut := insert p s.timedOut }
  | _ => s

/-- Effect of a handler's action list, applied in order. -/
def applyActions (s : GuildState) (l : List Action) : GuildState :=
  l.foldl applyAction s

/-- The principals a trace bans, in order. -/
def bannedIn (l : List Action) : List Principal :=
  l.filterMap (fun a =>
    match a with
    | Action.ban p _ => some p
    | _ => none)

/-- Claim C1: a message whose body matches the URL pattern gets verdict
DeleteAndWarn when its author is not allow-listed — the message is
deleted, the author is warned by DM, and the action is logged — while an
allow-listed author gets Allow from the link rule (and indeed no action
at all beyond command forwarding), regardless of URL content. -/
theorem C1_link_policy (wl : Finset Principal) (m : MsgEvent)
    (hbot : m.author.isBot = false) (hurl : linkSearchList m.content = true) :
    (m.author.id ∉ wl →
      linkVerdict wl m = Verdict.DeleteAndWarn ∧
      Action.deleteMessage m.msgId ∈ onMessage wl m ∧
      Action.sendDM m.author.id DmText.linkWarning ∈ onMessage wl m ∧
      Action.logAction (LogText.linkViolation m.author.id m.channelId (m.content.take 100)) ∈
        onMessage wl m) ∧
    (m.author.id ∈ wl →
      linkVerdict wl m = Verdict.Allow ∧
      onMessage wl m = [Action.processCommands m.msgId]) := by
  constructor
  · intro hmem
    have hfire : linkRuleFires wl m = true := by
      simp [linkRuleFires, hurl, hmem]
    simp [linkVerdict, onMessage, hbot, hfire]
  · intro hmem
    have hfire : linkRuleFires wl m = false := by
      simp [linkRuleFires, hmem]
    have hfire2 : mentionRuleFires wl m = false := by
      simp [mentionRuleFires, hmem]
    simp [linkVerdict, onMessage, hbot, hfire, hfire2]

/-- Witness for C1 at a concrete message containing `http://x`. -/
theorem C1_link_policy_witness :
    ((5 : Principal) ∉ ({7} : Finset Principal) →
      linkVerdict {7} ⟨1, ⟨5, false⟩, ['h', 't', 't', 'p', ':', '/', '/', 'x'], 2⟩ =
        Verdict.DeleteAndWarn ∧
      Action.deleteMessage 1 ∈
        onMessage {7} ⟨1, ⟨5, false⟩, ['h', 't', 't', 'p', ':', '/', '/', 'x'], 2⟩ ∧
      Action.sendDM 5 DmText.linkWarning ∈
        onMessage {7} ⟨1, ⟨5, false⟩, ['h', 't', 't', 'p', ':', '/', '/', 'x'], 2⟩ ∧
      Action.logAction
          (LogText.linkViolation 5 2
            (List.take 100 ['h', 't', 't', 'p', ':', '/', '/', 'x'])) ∈
        onMessage {7} ⟨1, ⟨5, false⟩, ['h', 't', 't', 'p', ':', '/', '/', 'x'], 2⟩) ∧
    ((5 : Principal) ∈ ({7} : Finset Principal) →
      linkVerdict {7} ⟨1, ⟨5, false⟩, ['h', 't', 't', 'p', ':', '/', '/', 'x'], 2⟩ =
        Verdict.Allow ∧
      onMessage {7} ⟨1, ⟨5, false⟩, ['h', 't', 't', 'p', ':', '/', '/', 'x'], 2⟩ =
        [Action.processCommands 1]) :=
  C1_link_policy {7} ⟨1, ⟨5, false⟩, ['h', 't', 't', 'p', ':', '/', '/', 'x'], 2⟩
    rfl (by decide)

/-- Claim C2: a message whose lowercased body contains `@everyone` or
`@here` gets verdict TimeoutAndWarn when its author is not allow-listed —
the message is deleted, the author is timed out for exactly 600 seconds
with reason "Mass mention violation", warned by DM, and the action is
logged — while an allow-listed author never triggers the rule. -/
theorem C2_mass_mention_policy (wl : Finset Principal) (m : MsgEvent)
    (hbot : m.author.isBot = false) (hmen : mentionHit m.content = true) :
    (m.author.id ∉ wl →
      mentionVerdict wl m = Verdict.TimeoutAndWarn ∧
      Action.deleteMessage m.msgId ∈ onMessage wl m ∧
      Action.timeoutMember m.author.id 600 "Mass mention violation" ∈ onMessage wl m ∧
      Action.sendDM m.author.id (DmText.massMentionWarning 10) ∈ onMessage wl m ∧
      Action.logAction (LogText.massMention m.author.id m.channelId) ∈ onMessage wl m) ∧
    (m.author.id ∈ wl →
      mentionVerdict wl m = Verdict.Allow ∧
      Action.timeoutMember m.author.id 600 "Mass mention violation" ∉ onMessage wl m) := by
  constructor
  · intro hmem
    have hfire : mentionRuleFires wl m = true := by
      simp [mentionRuleFires, hmen, hmem]
    simp [mentionVerdict, onMessage, hbot, hfire, TIMEOUT_DURATION]
  · intro hmem
    have hfire : mentionRuleFires wl m = false := by
      simp [mentionRuleFires, hmem]
    have hfire2 : linkRuleFires wl m = false := by
      simp [linkRuleFires, hmem]
    simp [mentionVerdict, onMessage, hbot, hfire, hfire2]

/-- Witness for C2 at a concrete message containing `@here`. -/
theorem C2_mass_mention_policy_witness :
    ((5 : Principal) ∉ ({7} : Finset Principal) →
      mentionVerdict {7} ⟨1, ⟨5, false⟩, ['@', 'h', 'e', 'r', 'e'], 2⟩ =
        Verdict.TimeoutAndWarn ∧
      Action.deleteMessage 1 ∈
        onMessage {7} ⟨1, ⟨5, false⟩, ['@', 'h', 'e', 'r', 'e'], 2⟩ ∧
      Action.timeoutMember 5 600 "Mass mention violation" ∈
        onMessage {7} ⟨1, ⟨5, false⟩, ['@', 'h', 'e', 'r', 'e'], 2⟩ ∧
      Action.sendDM 5 (DmText.massMentionWarning 10) ∈
        onMessage {7} ⟨1, ⟨5, false⟩, ['@', 'h', 'e', 'r', 'e'], 2⟩ ∧
      Action.logAction (LogText.massMention 5 2) ∈
        onMessage {7} ⟨1, ⟨5, false⟩, ['@', 'h', 'e', 'r', 'e'], 2⟩) ∧
    ((5 : Principal) ∈ ({7} : Finset Principal) →
      mentionVerdict {7} ⟨1, ⟨5, false⟩, ['@', 'h', 'e', 'r', 'e'], 2⟩ = Verdict.Allow ∧
      Action.timeoutMember 5 600 "Mass mention violation" ∉
        onMessage {7} ⟨1, ⟨5, false⟩, ['@', 'h', 'e', 'r', 'e'], 2⟩) :=
  C2_mass_mention_policy {7} ⟨1, ⟨5, false⟩, ['@', 'h', 'e', 'r', 'e'], 2⟩
    rfl (by decide)

/-- Claim C3: for the three structural-change events, a resolved actor
outside the allow-list yields RevertAndBan (delete the channel/role, or
for a ban just ban the actor; ban the actor; log), a resolved actor in
the allow-list yields Allow with no action, and an empty audit-log
lookup produces no verdict at all: the handler performs nothing and the
(total) handler function raises no exception. -/
theorem C3_structural_policy (wl : Finset Principal) (cid : Nat) (cname : List Char)
    (rid : Nat) (rname : List Char) (tgt : Principal) (e : AuditEntry) :
    (on_guild_channel_create wl cid cname none = [] ∧
     on_guild_role_create wl rid rname none = [] ∧
     on_member_ban wl tgt none = []) ∧
    (e.userId ∈ wl →
      structuralVerdict wl e.userId = Verdict.Allow ∧
      on_guild_channel_create wl cid cname (some e) = [] ∧
      on_guild_role_create wl rid rname (some e) = [] ∧
      on_member_ban wl tgt (some e) = []) ∧
    (e.userId ∉ wl →
      structuralVerdict wl e.userId = Verdict.RevertAndBan ∧
      on_guild_channel_create wl cid cname (some e) =
        [Action.deleteChannel cid,
         Action.ban e.userId "Unauthorized channel creation",
         Action.logAction (LogText.channelCreateBan e.userId cname)] ∧
      on_guild_role_create wl rid rname (some e) =
        [Action.deleteRole rid,
         Action.ban e.userId "Unauthorized role creation",
         Action.logAction (LogText.roleCreateBan e.userId rname)] ∧
      on_member_ban wl tgt (some e) =
        [Action.ban e.userId "Unauthorized ban attempt",
         Action.logAction (LogText.banRevert e.userId tgt)]) := by
  refine ⟨⟨rfl, rfl, rfl⟩, ?_, ?_⟩ <;> intro hmem <;>
    simp [structuralVerdict, on_guild_channel_create, on_guild_role_create,
      on_member_ban, hmem]

/-- Witness for C3 at concrete payloads with actor 2 and allow-list ` \x7b1\x7d `. -/
theorem C3_structural_policy_witness :
    (on_guild_channel_create {1} 10 ['c'] none = [] ∧
     on_guild_role_create {1} 20 ['r'] none = [] ∧
     on_member_ban {1} 30 none = []) ∧
    ((2 : Principal) ∈ ({1} : Finset Principal) →
      structuralVerdict {1} 2 = Verdict.Allow ∧
      on_guild_channel_create {1} 10 ['c'] (some ⟨2⟩) = [] ∧
      on_guild_role_create {1} 20 ['r'] (some ⟨2⟩) = [] ∧
      on_member_ban {1} 30 (some ⟨2⟩) = []) ∧
    ((2 : Principal) ∉ ({1} : Finset Principal) →
      structuralVerdict {1} 2 = Verdict.RevertAndBan ∧
      on_guild_channel_create {1} 10 ['c'] (some ⟨2⟩) =
        [Action.deleteChannel 10,
         Action.ban 2 "Unauthorized channel creation",
         Action.logAction (LogText.channelCreateBan 2 ['c'])] ∧
      on_guild_role_create {1} 20 ['r'] (some ⟨2⟩) =
        [Action.deleteRole 20,
         Action.ban 2 "Unauthorized role creation",
         Action.logAction (LogText.roleCreateBan 2 ['r'])] ∧
      on_member_ban {1} 30 (some ⟨2⟩) =
        [Action.ban 2 "Unauthorized ban attempt",
         Action.logAction (LogText.banRevert 2 30)]) :=
  C3_structural_policy {1} 10 ['c'] 20 ['r'] 30 ⟨2⟩

/-- Claim C4: a message containing both a URL match and a mass mention
from a non-allow-listed author triggers both verdicts on the same
message, and the full trace is the link verdict's three actions followed
by the mention verdict's four actions (then command forwarding): the
link actions are all applied before any mention action begins. -/
theorem C4_both_rules_fire_in_order (wl : Finset Principal) (m : MsgEvent)
    (hbot : m.author.isBot = false) (hurl : linkSearchList m.content = true)
    (hmen : mentionHit m.content = true) (hmem : m.author.id ∉ wl) :
    linkVerdict wl m = Verdict.DeleteAndWarn ∧
    mentionVerdict wl m = Verdict.TimeoutAndWarn ∧
    onMessage wl m =
      [Action.deleteMessage m.msgId,
       Action.sendDM m.author.id DmText.linkWarning,
       Action.logAction (LogText.linkViolation m.author.id m.channelId (m.content.take 100)),
       Action.deleteMessage m.msgId,
       Action.timeoutMember m.author.id 600 "Mass mention violation",
       Action.sendDM m.author.id (DmText.massMentionWarning 10),
       Action.logAction (LogText.massMention m.author.id m.channelId),
       Action.processCommands m.msgId] := by
  have hfire : linkRuleFires wl m = true := by
    simp [linkRuleFires, hurl, hmem]
  have hfire2 : mentionRuleFires wl m = true := by
    simp [mentionRuleFires, hmen, hmem]
  simp [linkVerdict, mentionVerdict, onMessage, hbot, hfire, hfire2, TIMEOUT_DURATION]

/-- Witness for C4 at a concrete message containing `http://x @everyone`. -/
theorem C4_both_rules_fire_in_order_witness :
    linkVerdict ∅
        ⟨1, ⟨5, false⟩,
         ['h', 't', 't', 'p', ':', '/', '/', 'x', ' ',
          '@', 'e', 'v', 'e', 'r', 'y', 'o', 'n', 'e'], 2⟩ =
      Verdict.DeleteAndWarn ∧
    mentionVerdict ∅
        ⟨1, ⟨5, false⟩,
         ['h', 't', 't', 'p', ':', '/', '/', 'x', ' ',
          '@', 'e', 'v', 'e', 'r', 'y', 'o', 'n', 'e'], 2⟩ =
      Verdict.TimeoutAndWarn ∧
    onMessage ∅
        ⟨1, ⟨5, false⟩,
         ['h', 't', 't', 'p', ':', '/', '/', 'x', ' ',
          '@', 'e', 'v', 'e', 'r', 'y', 'o', 'n', 'e'], 2⟩ =
      [Action.deleteMessage 1,
       Action.sendDM 5 DmText.linkWarning,
       Action.logAction
         (LogText.linkViolation 5 2
           (List.take 100
             ['h', 't', 't', 'p', ':', '/', '/', 'x', ' ',
              '@', 'e', 'v', 'e', 'r', 'y', 'o', 'n', 'e'])),
       Action.deleteMessage 1,
       Action.timeoutMember 5 600 "Mass mention violation",
       Action.sendDM 5 (DmText.massMentionWarning 10),
       Action.logAction (LogText.massMention 5 2),
       Action.processCommands 1] :=
  C4_both_rules_fire_in_order ∅
    ⟨1, ⟨5, false⟩,
     ['h', 't', 't', 'p', ':', '/', '/', 'x', ' ',
      '@', 'e', 'v', 'e', 'r', 'y', 'o', 'n', 'e'], 2⟩
    rfl (by decide) (by decide) (by decide)

/-- Claim C5, counterexample: `message.delete()` has no `try` around it
in `on_message`, so when it raises (already-deleted target, missing
permission) the rest of the link verdict never runs. On a concrete link
message the verdict's actions include the warning DM, yet under a
failing delete the executed trace is just the delete attempt and the
handler aborts: the failure does block the subsequent actions of the
same verdict. -/
theorem C5_counterexample :
    linkRuleFires ∅ ⟨9, ⟨5, false⟩, ['h', 't', 't', 'p', ':', '/', '/', 'x'], 3⟩ = true ∧
    Action.sendDM 5 DmText.linkWarning ∈
      onMessage ∅ ⟨9, ⟨5, false⟩, ['h', 't', 't', 'p', ':', '/', '/', 'x'], 3⟩ ∧
    onMessageExc fmDeleteFail ∅ ⟨9, ⟨5, false⟩, ['h', 't', 't', 'p', ':', '/', '/', 'x'], 3⟩ =
      ([Action.deleteMessage 9], false) := by
  decide

/-- Claim C5, amended: only the DM primitive tolerates failure — a
`Forbidden` raised by `user.send` is caught inside `send_dm`, so the
handler's trace and completion are the same as in the failure-free run —
whereas a failing `message.delete()` propagates and aborts every
remaining action of that event's handling, including command
forwarding. -/
theorem C5_failure_semantics (wl : Finset Principal) (m : MsgEvent)
    (hbot : m.author.isBot = false) (hfire : linkRuleFires wl m = true) :
    (onMessageExc fmDmForbidden wl m = onMessageExc fmAllOk wl m ∧
     (onMessageExc fmAllOk wl m).2 = true) ∧
    onMessageExc fmDeleteFail wl m = ([Action.deleteMessage m.msgId], false) := by
  cases hm : mentionRuleFires wl m <;>
    simp [onMessageExc, seqExc, deleteExc, sendDmExc, timeoutExc, logExc,
      fmAllOk, fmDmForbidden, fmDeleteFail, hbot, hfire, hm]

/-- Witness for C5 at a concrete link message. -/
theorem C5_failure_semantics_witness :
    (onMessageExc fmDmForbidden ∅ ⟨9, ⟨5, false⟩, ['h', 't', 't', 'p', ':', '/', '/', 'x'], 3⟩ =
       onMessageExc fmAllOk ∅ ⟨9, ⟨5, false⟩, ['h', 't', 't', 'p', ':', '/', '/', 'x'], 3⟩ ∧
     (onMessageExc fmAllOk ∅ ⟨9, ⟨5, false⟩, ['h', 't', 't', 'p', ':', '/', '/', 'x'], 3⟩).2 =
       true) ∧
    onMessageExc fmDeleteFail ∅ ⟨9, ⟨5, false⟩, ['h', 't', 't', 'p', ':', '/', '/', 'x'], 3⟩ =
      ([Action.deleteMessage 9], false) :=
  C5_failure_semantics ∅ ⟨9, ⟨5, false⟩, ['h', 't', 't', 'p', ':', '/', '/', 'x'], 3⟩
    rfl (by decide)

/-- Claim C6, counterexample: the owner is in the startup allow-list,
but `unwhitelist` is a bare `whitelisted.discard(member.id)` — invoked
with the owner as target it removes the owner, so not every allow-list
operation preserves the owner's membership. -/
theorem C6_counterexample :
    (7 : Principal) ∈ initialWhitelist 7 ∧
    (7 : Principal) ∉ unwhitelist (initialWhitelist 7) 7 := by
  decide

/-- Claim C6, amended: the owner is a member of the initial allow-list;
`whitelist` preserves the owner's membership, and so does `unwhitelist`
for any target other than the owner; but `unwhitelist` invoked with the
owner as target removes the owner. -/
theorem C6_owner_membership (ownerId p : Principal) (wl : Finset Principal)
    (hown : ownerId ∈ wl) (hne : p ≠ ownerId) :
    ownerId ∈ initialWhitelist ownerId ∧
    ownerId ∈ whitelist wl p ∧
    ownerId ∈ unwhitelist wl p ∧
    ownerId ∉ unwhitelist wl ownerId := by
  refine ⟨?_, Finset.mem_insert_of_mem hown,
    Finset.mem_erase.mpr ⟨Ne.symm hne, hown⟩, Finset.not_mem_erase ownerId wl⟩
  simp [initialWhitelist]

/-- Witness for C6 with owner 7, target 3 and allow-list ` \x7b7\x7d `. -/
theorem C6_owner_membership_witness :
    (7 : Principal) ∈ initialWhitelist 7 ∧
    (7 : Principal) ∈ whitelist {7} 3 ∧
    (7 : Principal) ∈ unwhitelist {7} 3 ∧
    (7 : Principal) ∉ unwhitelist {7} 7 :=
  C6_owner_membership 7 3 {7} (by decide) (by decide)

/-- Claim C7: on a MemberBanned event with a non-allow-listed resolved
actor, the handler's trace is exactly "ban the resolved actor, write the
audit entry" — so the original ban's target stays banned (no unban
appears in the trace), the banned-set gains exactly the actor, and
channels, roles and timeouts are untouched. -/
theorem C7_ban_frame (wl : Finset Principal) (tgt : Principal) (e : AuditEntry)
    (s : GuildState) (hmem : e.userId ∉ wl) (htgt : tgt ∈ s.banned) :
    on_member_ban wl tgt (some e) =
      [Action.ban e.userId "Unauthorized ban attempt",
       Action.logAction (LogText.banRevert e.userId tgt)] ∧
    (applyActions s (on_member_ban wl tgt (some e))).banned = insert e.userId s.banned ∧
    tgt ∈ (applyActions s (on_member_ban wl tgt (some e))).banned ∧
    (applyActions s (on_member_ban wl tgt (some e))).channels = s.channels ∧
    (applyActions s (on_member_ban wl tgt (some e))).roles = s.roles ∧
    (applyActions s (on_member_ban wl tgt (some e))).timedOut = s.timedOut := by
  have htr : on_member_ban wl tgt (some e) =
      [Action.ban e.userId "Unauthorized ban attempt",
       Action.logAction (LogText.banRevert e.userId tgt)] := by
    simp [on_member_ban, hmem]
  rw [htr]
  refine ⟨rfl, rfl, ?_, rfl, rfl, rfl⟩
  exact Finset.mem_insert_of_mem htgt

/-- Witness for C7: actor 2 re-bans while target 4 stays banned. -/
theorem C7_ban_frame_witness :
    on_member_ban ∅ 4 (some ⟨2⟩) =
      [Action.ban 2 "Unauthorized ban attempt",
       Action.logAction (LogText.banRevert 2 4)] ∧
    (applyActions ⟨{4}, {10}, {20}, ∅⟩ (on_member_ban ∅ 4 (some ⟨2⟩))).banned =
      insert 2 {4} ∧
    (4 : Principal) ∈ (applyActions ⟨{4}, {10}, {20}, ∅⟩ (on_member_ban ∅ 4 (some ⟨2⟩))).banned ∧
    (applyActions ⟨{4}, {10}, {20}, ∅⟩ (on_member_ban ∅ 4 (some ⟨2⟩))).channels = {10} ∧
    (applyActions ⟨{4}, {10}, {20}, ∅⟩ (on_member_ban ∅ 4 (some ⟨2⟩))).roles = {20} ∧
    (applyActions ⟨{4}, {10}, {20}, ∅⟩ (on_member_ban ∅ 4 (some ⟨2⟩))).timedOut = ∅ :=
  C7_ban_frame ∅ 4 ⟨2⟩ ⟨{4}, {10}, {20}, ∅⟩ (by decide) (by decide)

/-- Claim C8: adding a principal makes `contains` true; removing it
afterwards makes `contains` false; and removing a principal that was
never added is a total no-op (set `discard` semantics, never an
error). -/
theorem C8_whitelist_roundtrip (wl : Finset Principal) (p : Principal)
    (hp : p ∉ wl) :
    p ∈ whitelist wl p ∧
    p ∉ unwhitelist (whitelist wl p) p ∧
    unwhitelist wl p = wl :=
  ⟨Finset.mem_insert_self p wl, Finset.not_mem_erase p (whitelist wl p),
    Finset.erase_eq_of_not_mem hp⟩

/-- Witness for C8 with principal 3 and allow-list ` \x7b5\x7d `. -/
theorem C8_whitelist_roundtrip_witness :
    (3 : Principal) ∈ whitelist {5} 3 ∧
    (3 : Principal) ∉ unwhitelist (whitelist {5} 3) 3 ∧
    unwhitelist {5} 3 = {5} :=
  C8_whitelist_roundtrip {5} 3 (by decide)

/-- Claim C9, counterexample: `on_message` returns early whenever
`message.author.bot` is set, not only for the bot's own account. Two
bot-authored messages with distinct author ids are both fully ignored
(empty trace, so neither is forwarded to command parsing); at most one
of those authors can be the bot's own account, so the set of ignored
events is strictly larger than the claim states. -/
theorem C9_counterexample :
    onMessage ∅ ⟨1, ⟨2, true⟩, [], 3⟩ = [] ∧
    onMessage ∅ ⟨1, ⟨3, true⟩, [], 3⟩ = [] ∧
    (2 : Principal) ≠ 3 := by
  decide

/-- Claim C9, amended: the handler ignores exactly those events whose
author carries the platform bot-account flag (its own account included,
but any bot account qualifies), and forwards every message from a
non-bot author to the command-parsing subsystem as the last step, after
the policy checks, regardless of the verdicts reached. -/
theorem C9_bot_filter (wl : Finset Principal) (m : MsgEvent) :
    (m.author.isBot = true → onMessage wl m = []) ∧
    (m.author.isBot = false →
      (onMessage wl m).getLast? = some (Action.processCommands m.msgId)) := by
  constructor
  · intro h
    simp [onMessage, h]
  · intro h
    simp only [onMessage, h, Bool.false_eq_true, if_false]
    exact List.getLast?_concat _

/-- Witness for C9 at a non-bot author and the empty allow-list. -/
theorem C9_bot_filter_witness :
    ((⟨5, false⟩ : Author).isBot = true → onMessage ∅ ⟨1, ⟨5, false⟩, [], 2⟩ = []) ∧
    ((⟨5, false⟩ : Author).isBot = false →
      (onMessage ∅ ⟨1, ⟨5, false⟩, [], 2⟩).getLast? =
        some (Action.processCommands 1)) :=
  C9_bot_filter ∅ ⟨1, ⟨5, false⟩, [], 2⟩

/-- Claim C10: for each structural-change handler, the set of principals
banned by the produced trace is determined by the audit-log result and
the allow-list alone — it is exactly the audit entry's acting user when
that user is outside the allow-list, and empty otherwise — and it is
identical across runs that differ only in the event payload (channel,
role, or ban target), i.e. independent of which principal actually
caused the triggering event. -/
theorem C10_audit_determines_ban (wl : Finset Principal) (e : AuditEntry)
    (audit : Option AuditEntry) (cid cid' : Nat) (cname cname' : List Char)
    (rid rid' : Nat) (rname rname' : List Char) (tgt tgt' : Principal) :
    (bannedIn (on_guild_channel_create wl cid cname (some e)) =
      if e.userId ∈ wl then [] else [e.userId]) ∧
    (bannedIn (on_guild_role_create wl rid rname (some e)) =
      if e.userId ∈ wl then [] else [e.userId]) ∧
    (bannedIn (on_member_ban wl tgt (some e)) =
      if e.userId ∈ wl then [] else [e.userId]) ∧
    bannedIn (on_guild_channel_create wl cid cname audit) =
      bannedIn (on_guild_channel_create wl cid' cname' audit) ∧
    bannedIn (on_guild_role_create wl rid rname audit) =
      bannedIn (on_guild_role_create wl rid' rname' audit) ∧
    bannedIn (on_member_ban wl tgt audit) =
      bannedIn (on_member_ban wl tgt' audit) := by
  have hc : ∀ (i : Nat) (nm : List Char) (a : Option AuditEntry),
      bannedIn (on_guild_channel_create wl i nm a) =
        match a with
        | none => []
        | some en => if en.userId ∈ wl then [] else [en.userId] := by
    intro i nm a
    cases a with
    | none => rfl
    | some en =>
      by_cases h : en.userId ∈ wl <;> simp [on_guild_channel_create, bannedIn, h]
  have hr : ∀ (i : Nat) (nm : List Char) (a : Option AuditEntry),
      bannedIn (on_guild_role_create wl i nm a) =
        match a with
        | none => []
        | some en => if en.userId ∈ wl then [] else [en.userId] := by
    intro i nm a
    cases a with
    | none => rfl
    | some en =>
      by_cases h : en.userId ∈ wl <;> simp [on_guild_role_create, bannedIn, h]
  have hb : ∀ (t : Principal) (a : Option AuditEntry),
      bannedIn (on_member_ban wl t a) =
        match a with
        | none => []
        | some en => if en.userId ∈ wl then [] else [en.userId] := by
    intro t a
    cases a with
    | none => rfl
    | some en =>
      by_cases h : en.userId ∈ wl <;> simp [on_member_ban, bannedIn, h]
  refine ⟨?_, ?_, ?_, ?_, ?_, ?_⟩
  · rw [hc]
  · rw [hr]
  · rw [hb]
  · rw [hc, hc]
  · rw [hr, hr]
  · rw [hb, hb]

end Amaze
